import Mathlib

/-
  Verification of the CHIP-8 emulator core (juhito/CHIP-8-Emulator).

  Shallow embedding of the TypeScript sources:
  * `Chip8.Screen`  embeds src/screen.ts (class Screen, first document).
  * `Chip8.Main`    embeds src/emulator.ts (class Emulator, first document):
                    the fields, `_fetch`, `_execute`, `_push`, `_pop`, `tick`, `load`.
  * `Chip8.PartV3`  embeds the fuller Emulator draft contained in the third
                    document of the unnamed source file (its `execute` uses the
                    masks 0x00FF / 0xF00F / 0xF0FF for the inner switches, so the
                    0x8xxx and 0xFxxx instruction bodies are reachable there).

  JavaScript conventions reproduced here:
  * A `Uint8Array` / `Uint16Array` write stores `value mod 2^8` / `value mod 2^16`
    (real modular arithmetic, also for negative numbers) and silently ignores an
    out-of-range index; machine integers are modelled as `Nat`/`Int` with explicit
    `% 256` / `% 65536`.
  * An out-of-range typed-array read yields `undefined`; every such read in this
    code flows into a bitwise operator or a typed-array store, both of which
    coerce `undefined` to 0, so those reads are modelled as 0.
  * `Math.random() * 255`, truncated by the bitwise AND it flows into, is the one
    nondeterministic input; it is modelled as an explicit `rand` argument.
-/

namespace Chip8

/-- JS ToUint8 as applied by a `Uint8Array` store: real modulus into [0,255]. -/
def toUint8 (n : Int) : Nat := (n % 256).toNat

/-- JS ToUint16 as applied by a `Uint16Array` store: real modulus into [0,65535]. -/
def toUint16 (n : Int) : Nat := (n % 65536).toNat

/-- Modelled from the spec: `ram_size` lives in src/utils/constants.ts, which is
not under src; the spec fixes memory at 4096 bytes. -/
def ram_size : Nat := 4096

/-- Modelled from the spec: `stack_size` lives in src/utils/constants.ts, which is
not under src; the spec fixes the call stack as a fixed-depth array of
(minimum) 16 entries, used here as the capacity. -/
def stack_size : Nat := 16

/-- Modelled from the spec: `reg_size` lives in src/utils/constants.ts, which is
not under src; the spec fixes sixteen 8-bit V registers. -/
def reg_size : Nat := 16

/-- Modelled from the spec: `key_size` lives in src/utils/constants.ts, which is
not under src; the spec fixes sixteen key flags. -/
def key_size : Nat := 16

/-- Modelled from the spec: `screen_width` lives in src/utils/constants.ts, which
is not under src; the spec fixes a 64-wide display. -/
def screen_width : Nat := 64

/-- Modelled from the spec: `screen_height` lives in src/utils/constants.ts, which
is not under src; the spec fixes a 32-high display. -/
def screen_height : Nat := 32

/-- Modelled from the spec: `font_size` lives in src/utils/constants.ts, which is
not under src; the spec fixes 16 glyphs of 5 bytes, 80 font bytes. -/
def font_size : Nat := 80

/-- `Uint8Array` element write: stores `toUint8 v` at index `i`, ignored when `i`
is out of range (JS semantics). Used for the 4096-byte memory. -/
def memWrite (m : Nat → Nat) (i : Nat) (v : Int) : Nat → Nat :=
  fun j => if i < ram_size ∧ j = i then toUint8 v else m j

/-- Memory read: in-range indices read the byte, out-of-range reads are
`undefined` in JS and coerce to 0 in every context this code reads memory. -/
def memRead (m : Nat → Nat) (i : Nat) : Nat := if i < ram_size then m i else 0

/-- `Uint8Array` element write for the 16-entry V register file. -/
def vregWrite (r : Nat → Nat) (i : Nat) (v : Int) : Nat → Nat :=
  fun j => if i < reg_size ∧ j = i then toUint8 v else r j

/-- `Uint16Array` element write for the 16-entry call stack; the stack pointer is
a plain JS number and may leave [0, 16), in which case the write is ignored. -/
def stackWrite (s : Nat → Nat) (i : Int) (v : Nat) : Nat → Nat :=
  fun j => if 0 ≤ i ∧ i < (stack_size : Int) ∧ (j : Int) = i then v % 65536 else s j

/-- Call stack read; an out-of-range read is `undefined` in JS (modelled as 0 —
the only such reads in the embedded code are on unreachable paths). -/
def stackRead (s : Nat → Nat) (i : Int) : Nat :=
  if 0 ≤ i ∧ i < (stack_size : Int) then s i.toNat else 0

/-- Display buffer of src/screen.ts: `grid y x` is the number stored at
`screen[y][x]` (the source indexes rows by y first); pixels hold 0 or 1. -/
structure Screen where
  grid : Nat → Nat → Nat

/-- `new Screen()` / `init_screen`: a 32 × 64 grid of zeros. -/
def Screen.new : Screen := ⟨fun _ _ => 0⟩

/-- `drawPixel(x, y)`: `screen[y][x] ^= 1`, then return `!screen[y][x]` — true
exactly when the toggle turned an ON pixel OFF (the collision signal). -/
def Screen.drawPixel (s : Screen) (x y : Nat) : Screen × Bool :=
  let nv := (s.grid y x) ^^^ 1
  (⟨fun b a => if b = y ∧ a = x then nv else s.grid b a⟩, decide (nv = 0))

/-- Pixel query of the render collaborator (spec §6): the pixel at (x, y) is ON
exactly when `screen[y][x]` is nonzero. -/
def Screen.pixelOn (s : Screen) (x y : Nat) : Bool := decide (s.grid y x ≠ 0)

/-- The observable console messages of the engine, used as diagnostic signals. -/
inductive Diag where
  | subroutineReturn
  | doesntMatch
deriving DecidableEq

namespace Main

/-- State of `class Emulator` in src/emulator.ts (first document): `_memory`,
`_vreg`, `_ireg`, `_stack`, `_sp`, `_pc`, `_dt`, `_st`, `_keys`, `_screen`.
The stack pointer is a plain JS number that the code can move out of range,
hence `Int`. -/
structure Emulator where
  memory : Nat → Nat
  vreg : Nat → Nat
  ireg : Nat
  stack : Nat → Nat
  sp : Int
  pc : Nat
  dt : Nat
  st : Nat
  keys : Nat → Bool
  screen : Screen

/-- `_push(data)`: `stack[sp] = data; sp += 1` (no bound check). -/
def push (e : Emulator) (data : Nat) : Emulator :=
  { e with stack := stackWrite e.stack e.sp data, sp := e.sp + 1 }

/-- `_pop()`: `sp -= 1; return stack[sp]` (never called by the engine). -/
def pop (e : Emulator) : Emulator × Nat :=
  ({ e with sp := e.sp - 1 }, stackRead e.stack (e.sp - 1))

/-- `_fetch()`: big-endian 2-byte instruction word at `pc`, then `pc += 2`. -/
def fetch (e : Emulator) : Emulator × Nat :=
  let first_byte := memRead e.memory e.pc
  let second_byte := memRead e.memory (e.pc + 1)
  ({ e with pc := e.pc + 2 }, (first_byte <<< 8) ||| second_byte)

/-- DXYN inner loop over the 8 sprite bits, `j` counting up while `rem`
counts the remaining iterations; mirrors
`if (sprite & 0x80) { xx = (x_coord+j) % 64; yy = (y_coord+i) % 32;
 if (drawPixel(xx,yy)) vreg[0xF] = 1 }; sprite <<= 1`. -/
def drawBits (x_coord y_coord i : Nat) : Nat → Nat → Nat → Emulator → Emulator
  | 0, _, _, e => e
  | rem + 1, j, sprite, e =>
    let e2 :=
      if sprite &&& 0x80 ≠ 0 then
        let xx := (x_coord + j) % screen_width
        let yy := (y_coord + i) % screen_height
        let d := e.screen.drawPixel xx yy
        let e3 := { e with screen := d.1 }
        if d.2 then { e3 with vreg := vregWrite e3.vreg 0xF 1 } else e3
      else e
    drawBits x_coord y_coord i rem (j + 1) (sprite <<< 1) e2

/-- DXYN outer loop over the `height` sprite rows: each row reads
`sprite = memory[ireg + i]` and runs the 8-bit inner loop. -/
def drawRows (x_coord y_coord : Nat) : Nat → Nat → Emulator → Emulator
  | 0, _, e => e
  | remRows + 1, i, e =>
    let sprite := memRead e.memory (e.ireg + i)
    drawRows x_coord y_coord remRows (i + 1) (drawBits x_coord y_coord i 8 0 sprite e)

/-- FX55 loop: `memory[ireg + i] = vreg[i]` for `i = 0 .. x` (inclusive);
`cnt` counts the remaining iterations. -/
def regsToMem (vreg : Nat → Nat) (ireg : Nat) : Nat → Nat → (Nat → Nat) → (Nat → Nat)
  | _, 0, m => m
  | i, cnt + 1, m => regsToMem vreg ireg (i + 1) cnt (memWrite m (ireg + i) (vreg i))

/-- FX65 loop: `vreg[i] = memory[ireg + i]` for `i = 0 .. x` (inclusive). -/
def memToRegs (mem : Nat → Nat) (ireg : Nat) : Nat → Nat → (Nat → Nat) → (Nat → Nat)
  | _, 0, r => r
  | i, cnt + 1, r => memToRegs mem ireg (i + 1) cnt (vregWrite r i (memRead mem (ireg + i)))

/-- `_execute(opcode)` of src/emulator.ts, first document. Notable source
features reproduced exactly:
* case 0x0000 compares `opcode & 0x000F` against the labels 0x00E0 / 0x00EE,
  which can never equal a value below 0x10, and has no `break`: control falls
  through into the `case 0x1000` jump;
* case 0x8000 compares `opcode & 0x000F` against labels 0x8000 .. 0x800E —
  never equal, so every 8xxx body below is dead code here;
* case 0xF000 compares `opcode & 0x00FF` against labels 0xF007 .. 0xF065 —
  never equal, so every Fxxx body below is dead code here;
* case 0xE000 contains only comments;
* the `default` diagnostic is unreachable (all 16 high-nibble values have cases).
`rand` stands for the `Math.random() * 255` value consumed by case 0xC000. -/
def execute (e : Emulator) (opcode : Nat) (rand : Nat) : Emulator × List Diag :=
  let x := (opcode &&& 0x0F00) >>> 8
  let y := (opcode &&& 0x00F0) >>> 4
  if opcode &&& 0xF000 = 0x0000 then
    let inner : Emulator × List Diag :=
      if opcode &&& 0x000F = 0x00E0 then
        ({ e with screen := Screen.new }, [])
      else if opcode &&& 0x000F = 0x00EE then
        -- dead: would read `stack[pc]` (out of range, `undefined` in JS) into pc
        ({ e with pc := stackRead e.stack (e.pc : Int), sp := e.sp - 1 },
          [Diag.subroutineReturn])
      else (e, [])
    -- missing `break`: fall through into the 1NNN jump
    ({ inner.1 with pc := opcode &&& 0x0FFF }, inner.2)
  else if opcode &&& 0xF000 = 0x1000 then
    ({ e with pc := opcode &&& 0x0FFF }, [])
  else if opcode &&& 0xF000 = 0x2000 then
    let e2 := push e e.pc
    ({ e2 with pc := opcode &&& 0x0FFF }, [])
  else if opcode &&& 0xF000 = 0x3000 then
    (if e.vreg x = (opcode &&& 0x00FF) then { e with pc := e.pc + 2 } else e, [])
  else if opcode &&& 0xF000 = 0x4000 then
    (if e.vreg x ≠ (opcode &&& 0x00FF) then { e with pc := e.pc + 2 } else e, [])
  else if opcode &&& 0xF000 = 0x5000 then
    (if e.vreg x = e.vreg y then { e with pc := e.pc + 2 } else e, [])
  else if opcode &&& 0xF000 = 0x6000 then
    ({ e with vreg := vregWrite e.vreg x (Int.ofNat (opcode &&& 0x00FF)) }, [])
  else if opcode &&& 0xF000 = 0x7000 then
    ({ e with vreg := vregWrite e.vreg x (Int.ofNat (e.vreg x + (opcode &&& 0x00FF))) }, [])
  else if opcode &&& 0xF000 = 0x8000 then
    -- inner switch on `opcode & 0x000F`; every label below is ≥ 0x8000, so no
    -- branch can run (the bodies are embedded for fidelity)
    (if opcode &&& 0x000F = 0x8000 then
      { e with vreg := vregWrite e.vreg x (e.vreg y) }
    else if opcode &&& 0x000F = 0x8001 then
      { e with vreg := vregWrite e.vreg x (Int.ofNat (e.vreg x ||| e.vreg y)) }
    else if opcode &&& 0x000F = 0x8002 then
      { e with vreg := vregWrite e.vreg x (Int.ofNat (e.vreg x &&& e.vreg y)) }
    else if opcode &&& 0x000F = 0x8003 then
      { e with vreg := vregWrite e.vreg x (Int.ofNat (e.vreg x ^^^ e.vreg y)) }
    else if opcode &&& 0x000F = 0x8004 then
      -- let sum = (vreg[x] += vreg[y]) : the value of the compound assignment is
      -- the raw sum before the Uint8 store clamps it
      let sum := e.vreg x + e.vreg y
      let e1 := { e with vreg := vregWrite e.vreg x (Int.ofNat sum) }
      let e2 := { e1 with vreg := vregWrite e1.vreg 0xF 0 }
      let e3 := if sum > 255 then { e2 with vreg := vregWrite e2.vreg 0xF 1 } else e2
      { e3 with vreg := vregWrite e3.vreg x (Int.ofNat sum) }
    else if opcode &&& 0x000F = 0x8005 then
      -- the borrow flag is written into MEMORY index 0xF, not the register file
      let e1 := { e with memory := memWrite e.memory 0xF 0 }
      let e2 := if e1.vreg x > e1.vreg y then
          { e1 with memory := memWrite e1.memory 0xF 1 } else e1
      { e2 with vreg := vregWrite e2.vreg x ((e2.vreg x : Int) - (e2.vreg y : Int)) }
    else if opcode &&& 0x000F = 0x8006 then
      let e1 := { e with vreg := vregWrite e.vreg 0xF (Int.ofNat (e.vreg x &&& 0x1)) }
      { e1 with vreg := vregWrite e1.vreg x (Int.ofNat (e1.vreg x >>> 1)) }
    else if opcode &&& 0x000F = 0x8007 then
      let e1 := { e with memory := memWrite e.memory 0xF 0 }
      let e2 := if e1.vreg x < e1.vreg y then
          { e1 with memory := memWrite e1.memory 0xF 1 } else e1
      { e2 with vreg := vregWrite e2.vreg x ((e2.vreg y : Int) - (e2.vreg x : Int)) }
    else if opcode &&& 0x000F = 0x800E then
      let e1 := { e with vreg := vregWrite e.vreg 0xF (Int.ofNat (e.vreg x &&& 0x80)) }
      { e1 with vreg := vregWrite e1.vreg x (Int.ofNat (e1.vreg x <<< 1)) }
    else e, [])
  else if opcode &&& 0xF000 = 0x9000 then
    (if e.vreg x ≠ e.vreg y then { e with pc := e.pc + 2 } else e, [])
  else if opcode &&& 0xF000 = 0xA000 then
    ({ e with ireg := opcode &&& 0x0FFF }, [])
  else if opcode &&& 0xF000 = 0xB000 then
    ({ e with pc := (opcode &&& 0x0FFF) + e.vreg 0 }, [])
  else if opcode &&& 0xF000 = 0xC000 then
    ({ e with vreg := vregWrite e.vreg x (Int.ofNat (rand &&& (opcode &&& 0x00FF))) }, [])
  else if opcode &&& 0xF000 = 0xD000 then
    let x_coord := e.vreg x
    let y_coord := e.vreg y
    let height := opcode &&& 0x000F
    let e2 := { e with vreg := vregWrite e.vreg 0xF 0 }
    (drawRows x_coord y_coord height 0 e2, [])
  else if opcode &&& 0xF000 = 0xE000 then
    (e, [])
  else if opcode &&& 0xF000 = 0xF000 then
    -- inner switch on `opcode & 0x00FF`; every label below is ≥ 0xF007, so no
    -- branch can run (the bodies are embedded for fidelity)
    (if opcode &&& 0x00FF = 0xF007 then
      { e with vreg := vregWrite e.vreg x (Int.ofNat e.dt) }
    else if opcode &&& 0x00FF = 0xF015 then
      { e with dt := e.vreg x }
    else if opcode &&& 0x00FF = 0xF018 then
      { e with st := e.vreg x }
    else if opcode &&& 0x00FF = 0xF01E then
      { e with ireg := e.ireg + e.vreg x }
    else if opcode &&& 0x00FF = 0xF00A then
      e   -- TODO in the source: no waiting sub-state, the opcode does nothing
    else if opcode &&& 0x00FF = 0xF029 then
      { e with ireg := e.vreg x * 5 }
    else if opcode &&& 0x00FF = 0xF033 then
      let e1 := { e with memory := memWrite e.memory e.ireg (Int.ofNat (e.vreg x / 100)) }
      let e2 :=
        { e1 with memory := memWrite e1.memory (e1.ireg + 1) (Int.ofNat ((e1.vreg x % 100) / 10)) }
      { e2 with memory := memWrite e2.memory (e2.ireg + 2) (Int.ofNat (e2.vreg x % 10)) }
    else if opcode &&& 0x00FF = 0xF055 then
      { e with memory := regsToMem e.vreg e.ireg 0 (x + 1) e.memory }
    else if opcode &&& 0x00FF = 0xF065 then
      { e with vreg := memToRegs e.memory e.ireg 0 (x + 1) e.vreg }
    else e, [])
  else
    (e, [Diag.doesntMatch])

/-- Result of one `tick()`: the new engine state, the diagnostics logged during
execute, and whether the beep message was logged. -/
structure TickResult where
  state : Emulator
  diags : List Diag
  beep : Bool

/-- The engine state after the fetch + execute stage of `tick()`, before the
timer update (names the intermediate value of `tick`). -/
def execPhase (e : Emulator) (rand : Nat) : Emulator :=
  (execute (fetch e).1 (fetch e).2 rand).1

/-- `tick()`: fetch, execute, then
`if (dt > 0) dt -= 1; if (st > 0) { if (st == 1) beep; st -= 1 }`. -/
def tick (e : Emulator) (rand : Nat) : TickResult :=
  let f := fetch e
  let ex := execute f.1 f.2 rand
  let e2 := ex.1
  let e3 := { e2 with dt := if e2.dt > 0 then e2.dt - 1 else e2.dt }
  let beep := if e3.st > 0 then (if e3.st = 1 then true else false) else false
  let e4 := { e3 with st := if e3.st > 0 then e3.st - 1 else e3.st }
  ⟨e4, ex.2, beep⟩

/-- Sequential byte store of `load`: `memory[base + i] = data[i]`. -/
def storeBytes : (Nat → Nat) → Nat → List Nat → (Nat → Nat)
  | m, _, [] => m
  | m, base, b :: rest => storeBytes (memWrite m base b) (base + 1) rest

/-- `load(data)`: `for i in 0..data.length-1: memory[this._pc + i] = data[i]` —
note the target is the CURRENT program counter, not the constant 0x200. -/
def load (e : Emulator) (data : List Nat) : Emulator :=
  { e with memory := storeBytes e.memory e.pc data }

/-- Modelled from the spec: the constructor copies the font table (which lives in
the missing src/utils/constants.ts) into memory[0..79]; the font bytes are
abstracted as a parameter. All other fields as in the source constructor. -/
def mkEmulator (font_set : Nat → Nat) : Emulator where
  memory := fun a => if a < font_size then font_set a % 256 else 0
  vreg := fun _ => 0
  ireg := 0
  stack := fun _ => 0
  sp := 0
  pc := 0x200
  dt := 0
  st := 0
  keys := fun _ => false
  screen := Screen.new

end Main

namespace PartV3

/-- State of the fuller `class Emulator` draft (third document of the unnamed
source file): the same fields as `Main.Emulator` plus a `running` flag; the
constructor there starts with `sp = 0`. Only `execute` — the method the claims
cite from this draft — differs from src/emulator.ts and is embedded below. -/
structure Emulator where
  memory : Nat → Nat
  vreg : Nat → Nat
  ireg : Nat
  stack : Nat → Nat
  sp : Int
  pc : Nat
  dt : Nat
  st : Nat
  keys : Nat → Bool
  screen : Screen
  running : Bool

/-- DXYN inner loop over the 8 sprite bits (same code as in src/emulator.ts,
restated for this draft's state type). -/
def drawBits (xcoord ycoord i : Nat) : Nat → Nat → Nat → Emulator → Emulator
  | 0, _, _, e => e
  | rem + 1, j, sprite, e =>
    let e2 :=
      if sprite &&& 0x80 ≠ 0 then
        let xx := (xcoord + j) % screen_width
        let yy := (ycoord + i) % screen_height
        let d := e.screen.drawPixel xx yy
        let e3 := { e with screen := d.1 }
        if d.2 then { e3 with vreg := vregWrite e3.vreg 0xF 1 } else e3
      else e
    drawBits xcoord ycoord i rem (j + 1) (sprite <<< 1) e2

/-- DXYN outer loop over the `height` sprite rows. -/
def drawRows (xcoord ycoord : Nat) : Nat → Nat → Emulator → Emulator
  | 0, _, e => e
  | remRows + 1, i, e =>
    let sprite := memRead e.memory (e.ireg + i)
    drawRows xcoord ycoord remRows (i + 1) (drawBits xcoord ycoord i 8 0 sprite e)

/-- FX55 loop: `memory[ireg + i] = vreg[i]` for `i = 0 .. x` (inclusive). -/
def regsToMem (vreg : Nat → Nat) (ireg : Nat) : Nat → Nat → (Nat → Nat) → (Nat → Nat)
  | _, 0, m => m
  | i, cnt + 1, m => regsToMem vreg ireg (i + 1) cnt (memWrite m (ireg + i) (vreg i))

/-- FX65 loop: `vreg[i] = memory[ireg + i]` for `i = 0 .. x` (inclusive). -/
def memToRegs (mem : Nat → Nat) (ireg : Nat) : Nat → Nat → (Nat → Nat) → (Nat → Nat)
  | _, 0, r => r
  | i, cnt + 1, r => memToRegs mem ireg (i + 1) cnt (vregWrite r i (memRead mem (ireg + i)))

/-- `execute(opcode)` of the fuller draft. Differences from src/emulator.ts that
the source shows: the 0x0000 family switches on `opcode & 0x00FF` (so 0x00E0 and
0x00EE match) and `break`s, 2NNN is `sp++; stack[sp] = pc; pc = nnn`, the 0x8000
family switches on `opcode & 0xF00F` (bodies reachable), the 0xE000 family
switches on `opcode & 0x00FF` against labels 0xE09E/0xE0A1 (never equal — both
branches dead), and the 0xF000 family switches on `opcode & 0xF0FF` (bodies
reachable, FX0A still a TODO no-op). The 8XY4/8XY5 bodies are textually the
same as in src/emulator.ts, including the flag-into-memory write of 8XY5. -/
def execute (e : Emulator) (opcode : Nat) (rand : Nat) : Emulator × List Diag :=
  let x := (opcode &&& 0x0F00) >>> 8
  let y := (opcode &&& 0x00F0) >>> 4
  if opcode &&& 0xF000 = 0x0000 then
    (if opcode &&& 0x00FF = 0x00E0 then
      { e with screen := Screen.new }
    else if opcode &&& 0x00FF = 0x00EE then
      { e with pc := stackRead e.stack e.sp, sp := e.sp - 1 }
    else e, [])
  else if opcode &&& 0xF000 = 0x1000 then
    ({ e with pc := opcode &&& 0x0FFF }, [])
  else if opcode &&& 0xF000 = 0x2000 then
    let e1 := { e with sp := e.sp + 1 }
    let e2 := { e1 with stack := stackWrite e1.stack e1.sp e1.pc }
    ({ e2 with pc := opcode &&& 0x0FFF }, [])
  else if opcode &&& 0xF000 = 0x3000 then
    (if e.vreg x = (opcode &&& 0x00FF) then { e with pc := e.pc + 2 } else e, [])
  else if opcode &&& 0xF000 = 0x4000 then
    (if e.vreg x ≠ (opcode &&& 0x00FF) then { e with pc := e.pc + 2 } else e, [])
  else if opcode &&& 0xF000 = 0x5000 then
    (if e.vreg x = e.vreg y then { e with pc := e.pc + 2 } else e, [])
  else if opcode &&& 0xF000 = 0x6000 then
    ({ e with vreg := vregWrite e.vreg x (Int.ofNat (opcode &&& 0x00FF)) }, [])
  else if opcode &&& 0xF000 = 0x7000 then
    ({ e with vreg := vregWrite e.vreg x (Int.ofNat (e.vreg x + (opcode &&& 0x00FF))) }, [])
  else if opcode &&& 0xF000 = 0x8000 then
    (if opcode &&& 0xF00F = 0x8000 then
      { e with vreg := vregWrite e.vreg x (Int.ofNat (e.vreg y)) }
    else if opcode &&& 0xF00F = 0x8001 then
      { e with vreg := vregWrite e.vreg x (Int.ofNat (e.vreg x ||| e.vreg y)) }
    else if opcode &&& 0xF00F = 0x8002 then
      { e with vreg := vregWrite e.vreg x (Int.ofNat (e.vreg x &&& e.vreg y)) }
    else if opcode &&& 0xF00F = 0x8003 then
      { e with vreg := vregWrite e.vreg x (Int.ofNat (e.vreg x ^^^ e.vreg y)) }
    else if opcode &&& 0xF00F = 0x8004 then
      -- let sum = (vreg[x] += vreg[y]) : the value of the compound assignment is
      -- the raw sum before the Uint8 store clamps it
      let sum := e.vreg x + e.vreg y
      let e1 := { e with vreg := vregWrite e.vreg x (Int.ofNat sum) }
      let e2 := { e1 with vreg := vregWrite e1.vreg 0xF 0 }
      let e3 := if sum > 255 then { e2 with vreg := vregWrite e2.vreg 0xF 1 } else e2
      { e3 with vreg := vregWrite e3.vreg x (Int.ofNat sum) }
    else if opcode &&& 0xF00F = 0x8005 then
      -- the borrow flag is written into MEMORY index 0xF, not the register file
      let e1 := { e with memory := memWrite e.memory 0xF 0 }
      let e2 := if e1.vreg x > e1.vreg y then
          { e1 with memory := memWrite e1.memory 0xF 1 } else e1
      { e2 with vreg := vregWrite e2.vreg x ((e2.vreg x : Int) - (e2.vreg y : Int)) }
    else if opcode &&& 0xF00F = 0x8006 then
      let e1 := { e with vreg := vregWrite e.vreg 0xF (Int.ofNat (e.vreg x &&& 0x1)) }
      { e1 with vreg := vregWrite e1.vreg x (Int.ofNat (e1.vreg x >>> 1)) }
    else if opcode &&& 0xF00F = 0x8007 then
      let e1 := { e with memory := memWrite e.memory 0xF 0 }
      let e2 := if e1.vreg x < e1.vreg y then
          { e1 with memory := memWrite e1.memory 0xF 1 } else e1
      { e2 with vreg := vregWrite e2.vreg x ((e2.vreg y : Int) - (e2.vreg x : Int)) }
    else if opcode &&& 0xF00F = 0x800E then
      let e1 := { e with vreg := vregWrite e.vreg 0xF (Int.ofNat (e.vreg x &&& 0x80)) }
      { e1 with vreg := vregWrite e1.vreg x (Int.ofNat (e1.vreg x <<< 1)) }
    else e, [])
  else if opcode &&& 0xF000 = 0x9000 then
    (if e.vreg x ≠ e.vreg y then { e with pc := e.pc + 2 } else e, [])
  else if opcode &&& 0xF000 = 0xA000 then
    ({ e with ireg := opcode &&& 0x0FFF }, [])
  else if opcode &&& 0xF000 = 0xB000 then
    ({ e with pc := (opcode &&& 0x0FFF) + e.vreg 0 }, [])
  else if opcode &&& 0xF000 = 0xC000 then
    ({ e with vreg := vregWrite e.vreg x (Int.ofNat (rand &&& (opcode &&& 0x00FF))) }, [])
  else if opcode &&& 0xF000 = 0xD000 then
    let xcoord := e.vreg x
    let ycoord := e.vreg y
    let height := opcode &&& 0x000F
    let e2 := { e with vreg := vregWrite e.vreg 0xF 0 }
    (drawRows xcoord ycoord height 0 e2, [])
  else if opcode &&& 0xF000 = 0xE000 then
    -- switch on `opcode & 0x00FF` with labels 0xE09E / 0xE0A1: never equal a
    -- value below 0x100, so both branches are dead (embedded for fidelity)
    (if opcode &&& 0x00FF = 0xE09E then
      (if e.keys (e.vreg x) then { e with pc := e.pc + 2 } else e)
    else if opcode &&& 0x00FF = 0xE0A1 then
      (if ¬ e.keys (e.vreg x) then { e with pc := e.pc + 2 } else e)
    else e, [])
  else if opcode &&& 0xF000 = 0xF000 then
    (if opcode &&& 0xF0FF = 0xF007 then
      { e with vreg := vregWrite e.vreg x (Int.ofNat e.dt) }
    else if opcode &&& 0xF0FF = 0xF015 then
      { e with dt := e.vreg x }
    else if opcode &&& 0xF0FF = 0xF018 then
      { e with st := e.vreg x }
    else if opcode &&& 0xF0FF = 0xF01E then
      { e with ireg := e.ireg + e.vreg x }
    else if opcode &&& 0xF0FF = 0xF00A then
      e   -- TODO in the source: no waiting sub-state, the opcode does nothing
    else if opcode &&& 0xF0FF = 0xF029 then
      { e with ireg := e.vreg x * 5 }
    else if opcode &&& 0xF0FF = 0xF033 then
      let e1 := { e with memory := memWrite e.memory e.ireg (Int.ofNat (e.vreg x / 100)) }
      let e2 :=
        { e1 with memory := memWrite e1.memory (e1.ireg + 1) (Int.ofNat ((e1.vreg x % 100) / 10)) }
      { e2 with memory := memWrite e2.memory (e2.ireg + 2) (Int.ofNat (e2.vreg x % 10)) }
    else if opcode &&& 0xF0FF = 0xF055 then
      { e with memory := regsToMem e.vreg e.ireg 0 (x + 1) e.memory }
    else if opcode &&& 0xF0FF = 0xF065 then
      { e with vreg := memToRegs e.memory e.ireg 0 (x + 1) e.vreg }
    else e, [])
  else
    (e, [Diag.doesntMatch])

end PartV3

/-- A concrete src/emulator.ts engine state: everything zeroed, `pc = 0x200`,
`sp = 0` (the constructor state with an all-zero font table). -/
def zeroState : Main.Emulator where
  memory := fun _ => 0
  vreg := fun _ => 0
  ireg := 0
  stack := fun _ => 0
  sp := 0
  pc := 0x200
  dt := 0
  st := 0
  keys := fun _ => false
  screen := Screen.new

/-- A concrete state of the fuller draft engine: everything zeroed, `pc = 0x200`,
`sp = 0`, `running = true`. -/
def v3zero : PartV3.Emulator where
  memory := fun _ => 0
  vreg := fun _ => 0
  ireg := 0
  stack := fun _ => 0
  sp := 0
  pc := 0x200
  dt := 0
  st := 0
  keys := fun _ => false
  screen := Screen.new
  running := true

/-- Draft-engine state with V0 = 250 and V1 = 10 (the spec §8 carry scenario). -/
def c1w : PartV3.Emulator :=
  { v3zero with vreg := fun j => if j = 0 then 250 else if j = 1 then 10 else 0 }

/-- Draft-engine state with V[0xF] = 200 and V0 = 100 (sum 300 overflows). -/
def c1c : PartV3.Emulator :=
  { v3zero with vreg := fun j => if j = 15 then 200 else if j = 0 then 100 else 0 }

/-- Draft-engine state with V0 = 5 and V1 = 3 (borrow-free 8xy5 input). -/
def c2s : PartV3.Emulator :=
  { v3zero with vreg := fun j => if j = 0 then 5 else if j = 1 then 3 else 0 }

/-- Engine state as it is right after fetching a `2300` call word at 0x200:
`pc = 0x202`, empty stack. -/
def c3s : Main.Emulator := { zeroState with pc := 0x202 }

/-- Engine state after the `2300` call of `c3s` executed. -/
def c3mid : Main.Emulator := (Main.execute c3s 0x2300 0).1

/-- Engine state after the subsequent `00EE` executed (with the fetch advance of
the `00EE` word applied in between, as `tick` would). -/
def c3fin : Main.Emulator :=
  (Main.execute { c3mid with pc := c3mid.pc + 2 } 0x00EE 0).1

/-- Engine state with the pixel at (x = 0, y = 0) ON and `pc = 0x202`. -/
def c4s : Main.Emulator :=
  { zeroState with pc := 0x202, screen := ⟨fun b a => if b = 0 ∧ a = 0 then 1 else 0⟩ }

/-- Engine state with `pc = 0x202` (as after fetching a word at 0x200). -/
def c5s : Main.Emulator := { zeroState with pc := 0x202 }

/-- Engine state with sound timer 1 and all-zero memory (the fetched opcode
0x0000 touches neither timer). -/
def c6s : Main.Emulator := { zeroState with st := 1 }

/-- Engine state whose memory holds the single instruction `F00A` at 0x200 and
in which no key is pressed. -/
def c7s : Main.Emulator :=
  { zeroState with memory := fun a => if a = 0x200 then 0xF0 else if a = 0x201 then 0x0A else 0 }

/-- Engine state with a full call stack: `sp = 16` after sixteen pushes. -/
def c8s : Main.Emulator := { zeroState with sp := 16 }

/-- Engine state whose program counter was moved to 0x300 (e.g. by a jump). -/
def c9c : Main.Emulator := { zeroState with pc := 0x300 }

/-- Engine state with V0 = 7 (a 7xnn input). -/
def c10w : Main.Emulator :=
  { zeroState with vreg := fun j => if j = 0 then 7 else 0 }

/-- The x nibble of an opcode is always a valid register index. -/
lemma nibbleX_lt (op : Nat) : (op &&& 0x0F00) >>> 8 < 16 := by
  have h1 : op &&& 0x0F00 ≤ 0x0F00 := Nat.and_le_right
  have h2 : (op &&& 0x0F00) >>> 8 ≤ 0x0F00 >>> 8 := by
    simpa [Nat.shiftRight_eq_div_pow] using Nat.div_le_div_right (c := 2 ^ 8) h1
  omega

/-- Reading back the register just written. -/
lemma vregWrite_at (r : Nat → Nat) (i : Nat) (v : Int) (h : i < 16) :
    vregWrite r i v i = toUint8 v := by
  simp [vregWrite, reg_size, h]

/-- Reading a register other than the one written. -/
lemma vregWrite_ne (r : Nat → Nat) (i : Nat) (v : Int) (j : Nat) (h : j ≠ i) :
    vregWrite r i v j = r j := by
  simp [vregWrite, h]

/-- Storing a natural number into a `Uint8Array` cell keeps its value mod 256. -/
lemma toUint8_ofNat (n : Nat) : toUint8 (Int.ofNat n) = n % 256 := rfl

/-- Storing a sum of naturals into a `Uint8Array` cell wraps it mod 256. -/
lemma toUint8_add_nat (a b : Nat) : toUint8 ((a : Int) + (b : Int)) = (a + b) % 256 := rfl

/-- C1, amended: for every opcode matching 8xy4 with x ≠ 0xF and 8-bit operand
values, the draft engine's execute sets V[0xF] to the carry of the raw sum of
the pre-instruction operand values and V[x] to the sum mod 256. -/
theorem C1_thm (e : PartV3.Emulator) (opcode rand : Nat)
    (houter : opcode &&& 0xF000 = 0x8000)
    (hinner : opcode &&& 0xF00F = 0x8004)
    (hxF : (opcode &&& 0x0F00) >>> 8 ≠ 0xF)
    (hvx : e.vreg ((opcode &&& 0x0F00) >>> 8) < 256)
    (hvy : e.vreg ((opcode &&& 0x00F0) >>> 4) < 256) :
    ((PartV3.execute e opcode rand).1.vreg 0xF =
      if e.vreg ((opcode &&& 0x0F00) >>> 8) + e.vreg ((opcode &&& 0x00F0) >>> 4) > 255
      then 1 else 0) ∧
    ((PartV3.execute e opcode rand).1.vreg ((opcode &&& 0x0F00) >>> 8) =
      (e.vreg ((opcode &&& 0x0F00) >>> 8) + e.vreg ((opcode &&& 0x00F0) >>> 4)) % 256) := by
  have hx16 : (opcode &&& 0x0F00) >>> 8 < 16 := nibbleX_lt opcode
  have h15x : (0xF : Nat) ≠ (opcode &&& 0x0F00) >>> 8 := fun h => hxF h.symm
  unfold PartV3.execute
  rw [houter, hinner]
  norm_num
  by_cases hs :
      e.vreg ((opcode &&& 0x0F00) >>> 8) + e.vreg ((opcode &&& 0x00F0) >>> 4) > 255
  · simp only [if_pos hs]
    constructor
    · rw [vregWrite_ne _ _ _ _ h15x, vregWrite_at _ _ _ (by decide)]
      rfl
    · rw [vregWrite_at _ _ _ hx16]
      exact toUint8_add_nat _ _
  · simp only [if_neg hs]
    constructor
    · rw [vregWrite_ne _ _ _ _ h15x, vregWrite_at _ _ _ (by decide)]
      rfl
    · rw [vregWrite_at _ _ _ hx16]
      exact toUint8_add_nat _ _

/-- C1 witness: opcode 0x8014 on V0 = 250, V1 = 10 gives V0 = 4 with carry
V[0xF] = 1 (the spec §8 scenario), by the amended theorem. -/
theorem C1_witness :
    ((PartV3.execute c1w 0x8014 0).1.vreg 0xF = 1) ∧
    ((PartV3.execute c1w 0x8014 0).1.vreg 0 = 4) :=
  C1_thm c1w 0x8014 0 (by decide) (by decide) (by decide) (by decide) (by decide)

/-- C1 counterexample: for x = 0xF (opcode 0x8F04) with V[0xF] = 200, V0 = 100,
the sum 300 overflows, so the claim as stated requires V[0xF] = 1 after the
instruction; the code's final `vreg[x] = sum` write leaves V[0xF] = 44. -/
theorem C1_counterexample :
    ¬ ((PartV3.execute c1c 0x8F04 0).1.vreg 0xF =
        if c1c.vreg 15 + c1c.vreg 0 > 255 then 1 else 0) := by decide

/-- C2: executing 8xy5 (opcode 0x8015, V0 = 5, V1 = 3) writes the borrow flag 1
into MEMORY cell 0xF — inside the font area — leaves register 0xF at 0, and sets
V0 = 2; the claim (and spec) places the flag in register 0xF and touches no
memory cell. -/
theorem C2_divergence :
    ((PartV3.execute c2s 0x8015 0).1.memory 0xF = 1) ∧
    ((PartV3.execute c2s 0x8015 0).1.vreg 0xF = 0) ∧
    ((PartV3.execute c2s 0x8015 0).1.vreg 0 = 2) := by decide

/-- C3: from `c3s` (pc = 0x202 right after the `2300` fetch, sp = 0), executing
`2nnn` and then `00EE` ends with pc = 0x0EE and sp = 1 — not the claimed return
to pc = 0x202 with sp = 0: the `00EE` label can never match `opcode & 0x000F`
and control falls through into the `1nnn` jump. -/
theorem C3_divergence :
    (c3fin.pc = 0x0EE ∧ c3fin.sp = 1) ∧ (c3s.pc = 0x202 ∧ c3s.sp = 0) := by decide

/-- C4: executing 00E0 on a state with pixel (0,0) ON leaves the pixel ON and
jumps pc to 0x0E0 — the clear-screen case never matches `opcode & 0x000F` and
control falls through into the `1nnn` jump; the claim requires every pixel OFF
and no other state change. -/
theorem C4_divergence :
    ((Main.execute c4s 0x00E0 0).1.screen.pixelOn 0 0 = true) ∧
    ((Main.execute c4s 0x00E0 0).1.pc = 0x0E0) := by decide

/-- C5: executing the unrecognized opcode 0x0123 changes state — pc becomes
0x123 via the fallthrough into the `1nnn` jump — and emits no diagnostic;
the claim requires no state change plus a diagnostic. -/
theorem C5_divergence :
    ((Main.execute c5s 0x0123 0).1.pc = 0x123) ∧
    ((Main.execute c5s 0x0123 0).2 = []) := by decide

/-- C6: every tick decrements each nonzero timer by exactly one (leaving a zero
timer at zero) after the fetch/execute phase, and the beep signal fires on a
tick exactly when the sound timer was 1 before that tick's decrement; in
particular, from sound timer 1 one tick beeps and leaves it 0, and the next
tick does not beep. -/
theorem C6_thm (e : Main.Emulator) (rand : Nat) :
    ((Main.tick e rand).state.dt =
      if (Main.execPhase e rand).dt > 0 then (Main.execPhase e rand).dt - 1
      else (Main.execPhase e rand).dt) ∧
    ((Main.tick e rand).state.st =
      if (Main.execPhase e rand).st > 0 then (Main.execPhase e rand).st - 1
      else (Main.execPhase e rand).st) ∧
    ((Main.tick e rand).beep = true ↔ (Main.execPhase e rand).st = 1) ∧
    ((Main.tick c6s 0).beep = true ∧ (Main.tick c6s 0).state.st = 0 ∧
      (Main.tick (Main.tick c6s 0).state 0).beep = false) := by
  refine ⟨rfl, rfl, ?_, by decide⟩
  show (if (Main.execPhase e rand).st > 0 then
          (if (Main.execPhase e rand).st = 1 then true else false)
        else false) = true ↔ (Main.execPhase e rand).st = 1
  generalize (Main.execPhase e rand).st = n
  rcases n with _ | _ | n <;> simp

/-- C7: with `F00A` at 0x200 and no key pressed, one tick advances pc to 0x202
(the FX0A body is an empty TODO and the fetch advance stands), leaving V0
untouched; the claim requires the engine not to advance past FX0A until a key
transitions to pressed. -/
theorem C7_divergence :
    ((Main.tick c7s 0).state.pc = 0x202) ∧
    ((Main.tick c7s 0).state.vreg 0 = 0) := by decide

/-- C8: executing `2nnn` (opcode 0x2345) on a full stack (sp = 16) moves the
stack pointer to 17 — outside [0, 16) — while the out-of-range store is silently
dropped, and the jump still happens; the claim requires the push to be refused
with the stack pointer unchanged. -/
theorem C8_divergence :
    ((Main.execute c8s 0x2345 0).1.sp = 17) ∧
    (∀ j, (Main.execute c8s 0x2345 0).1.stack j = c8s.stack j) ∧
    ((Main.execute c8s 0x2345 0).1.pc = 0x345) := by
  refine ⟨by decide, ?_, by decide⟩
  intro j
  show stackWrite c8s.stack c8s.sp c8s.pc j = c8s.stack j
  rw [stackWrite]
  rw [if_neg]
  rintro ⟨-, h2, -⟩
  revert h2
  decide

/-- Bytes stored by `storeBytes` never touch addresses below the base. -/
lemma storeBytes_lt (data : List Nat) :
    ∀ (m : Nat → Nat) (base a : Nat), a < base →
      Main.storeBytes m base data a = m a := by
  induction data with
  | nil => intro m base a _; rfl
  | cons b rest ih =>
    intro m base a h
    show Main.storeBytes (memWrite m base b) (base + 1) rest a = m a
    rw [ih _ _ _ (by omega)]
    show (if base < ram_size ∧ a = base then toUint8 (Int.ofNat b) else m a) = m a
    rw [if_neg]
    rintro ⟨-, h2⟩
    omega

/-- `storeBytes` writes `data[i] mod 256` at address `base + i` when the block
fits in memory. -/
lemma storeBytes_at (data : List Nat) :
    ∀ (m : Nat → Nat) (base i : Nat) (hi : i < data.length),
      base + data.length ≤ 4096 →
      Main.storeBytes m base data (base + i) = (data.get ⟨i, hi⟩) % 256 := by
  induction data with
  | nil => intro m base i hi _; exact absurd hi (Nat.not_lt_zero i)
  | cons b rest ih =>
    intro m base i hi hbound
    cases i with
    | zero =>
      show Main.storeBytes (memWrite m base b) (base + 1) rest (base + 0) = b % 256
      rw [storeBytes_lt rest _ _ _ (by omega)]
      show (if base < ram_size ∧ base + 0 = base then toUint8 (Int.ofNat b)
            else m (base + 0)) = b % 256
      rw [if_pos ⟨by show base < 4096; simp at hbound; omega, by omega⟩]
      exact toUint8_ofNat b
    | succ i2 =>
      show Main.storeBytes (memWrite m base b) (base + 1) rest (base + (i2 + 1)) = _
      have harr : base + (i2 + 1) = (base + 1) + i2 := by omega
      rw [harr, ih _ _ _ (by simpa using Nat.lt_of_succ_lt_succ hi) (by simp at hbound; omega)]
      rfl

/-- C9, amended: `load` copies the bytes verbatim to consecutive addresses
starting at the CURRENT program counter; in a state with pc = 0x200 (as after
construction or reset) that is address 0x200, and the font region below 0x200
is untouched. -/
theorem C9_thm (e : Main.Emulator) (data : List Nat)
    (hlen : data.length ≤ 4096 - 0x200)
    (hbytes : ∀ b ∈ data, b < 256)
    (hpc : e.pc = 0x200) :
    (∀ i (hi : i < data.length),
      (Main.load e data).memory (0x200 + i) = data.get ⟨i, hi⟩) ∧
    (∀ a, a < 0x200 → (Main.load e data).memory a = e.memory a) := by
  constructor
  · intro i hi
    show Main.storeBytes e.memory e.pc data (0x200 + i) = _
    rw [hpc, storeBytes_at data e.memory 0x200 i hi (by omega)]
    have hb : data.get ⟨i, hi⟩ < 256 := hbytes _ (data.get_mem _ _)
    omega
  · intro a ha
    show Main.storeBytes e.memory e.pc data a = e.memory a
    rw [hpc]
    exact storeBytes_lt data e.memory 0x200 a ha

/-- C9 witness: loading [1, 2] into the fresh state (pc = 0x200) puts 2 at
address 0x201 and leaves font-region address 0x10 untouched. -/
theorem C9_witness :
    ((Main.load zeroState [1, 2]).memory (0x200 + 1) = 2) ∧
    ((Main.load zeroState [1, 2]).memory 0x10 = zeroState.memory 0x10) := by
  constructor
  · have h := (C9_thm zeroState [1, 2] (by decide) (by decide) rfl).1 1 (by decide)
    simpa using h
  · exact (C9_thm zeroState [1, 2] (by decide) (by decide) rfl).2 0x10 (by decide)

/-- C9 counterexample: in a state whose pc is 0x300, loading the single byte 7
does NOT place it at address 0x200 (the claim demands memory[0x200 + 0] = 7
regardless of the pc); the byte lands at 0x300 instead. -/
theorem C9_counterexample :
    ¬ ((Main.load c9c [7]).memory (0x200 + 0) = 7) ∧
    ((Main.load c9c [7]).memory 0x300 = 7) := by decide

/-- C10: executing 7xnn with x ≠ 0xF modifies only register x: register 0xF and
all other registers keep their values, and memory, index register, stack, stack
pointer, timers, pc, keys and screen are unchanged. -/
theorem C10_thm (e : Main.Emulator) (opcode rand : Nat)
    (hmask : opcode &&& 0xF000 = 0x7000)
    (hxF : (opcode &&& 0x0F00) >>> 8 ≠ 0xF) :
    ((Main.execute e opcode rand).1.vreg 0xF = e.vreg 0xF) ∧
    (∀ j, j ≠ (opcode &&& 0x0F00) >>> 8 →
      (Main.execute e opcode rand).1.vreg j = e.vreg j) ∧
    ((Main.execute e opcode rand).1.memory = e.memory) ∧
    ((Main.execute e opcode rand).1.ireg = e.ireg) ∧
    ((Main.execute e opcode rand).1.stack = e.stack) ∧
    ((Main.execute e opcode rand).1.sp = e.sp) ∧
    ((Main.execute e opcode rand).1.dt = e.dt) ∧
    ((Main.execute e opcode rand).1.st = e.st) ∧
    ((Main.execute e opcode rand).1.pc = e.pc) ∧
    ((Main.execute e opcode rand).1.keys = e.keys) ∧
    ((Main.execute e opcode rand).1.screen = e.screen) := by
  unfold Main.execute
  rw [hmask]
  norm_num
  refine ⟨?_, ?_⟩
  · exact vregWrite_ne _ _ _ _ (fun h => hxF h.symm)
  · intro j hj
    exact vregWrite_ne _ _ _ _ hj

/-- C10 witness: opcode 0x7005 (x = 0, nn = 5) on a state with V0 = 7 leaves
register 0xF, register 1, memory, ireg, stack, sp, timers, pc, keys and screen
unchanged. -/
theorem C10_witness :
    ((Main.execute c10w 0x7005 0).1.vreg 0xF = c10w.vreg 0xF) ∧
    ((Main.execute c10w 0x7005 0).1.vreg 1 = c10w.vreg 1) ∧
    ((Main.execute c10w 0x7005 0).1.ireg = c10w.ireg) ∧
    ((Main.execute c10w 0x7005 0).1.sp = c10w.sp) :=
  have h := C10_thm c10w 0x7005 0 (by decide) (by decide)
  ⟨h.1, h.2.1 1 (by decide), h.2.2.2.1, h.2.2.2.2.2.1⟩

end Chip8
